import Mathlib

/-!
Verification development for a Qt-based diagram editor (shapes, arrows,
resize handles, scene interaction, JSON serialization).  The Python source
is shallowly embedded: coordinates (Qt qreal) are modelled as rationals,
colors as exact 8-bit RGB triples (QColor.name round-trips 8-bit RGB
exactly), object references as indices/ids, and mutation as explicit state
passing.
-/

/-- Color stored as an 8-bit RGB triple, the information carried by a
QColor built from a hex name and recovered by QColor.name(). -/
structure Col where
  r : Nat
  g : Nat
  b : Nat
deriving DecidableEq, Repr

/-- The color "#ffffff". -/
def colWhite : Col := ⟨255, 255, 255⟩

/-- The color "#333333" (0x33 = 51). -/
def colDark : Col := ⟨51, 51, 51⟩

/-- Perceived luminance, from BaseShape._get_contrasting_color:
(0.299 r + 0.587 g + 0.114 b) / 255. -/
def luminance (c : Col) : ℚ :=
  ((299 * c.r + 587 * c.g + 114 * c.b : ℚ) / 1000) / 255

/-- BaseShape._get_contrasting_color: white for dark colors, dark gray
for light colors. -/
def get_contrasting_color (c : Col) : Col :=
  if luminance c < 1/2 then colWhite else colDark

/-- A 2D point (QPointF), coordinates as rationals. -/
structure Pt where
  x : ℚ
  y : ℚ
deriving DecidableEq, Repr

/-- An axis-aligned rectangle (QRectF), stored by its edges. -/
structure RectF where
  left : ℚ
  top : ℚ
  right : ℚ
  bottom : ℚ
deriving DecidableEq, Repr

def RectF.width (R : RectF) : ℚ := R.right - R.left

def RectF.height (R : RectF) : ℚ := R.bottom - R.top

/-- QRectF.normalized(): swap edges so width and height are nonnegative. -/
def RectF.normalized (R : RectF) : RectF :=
  ⟨min R.left R.right, min R.top R.bottom, max R.left R.right, max R.top R.bottom⟩

/-- Center of a rectangle. -/
def RectF.center (R : RectF) : Pt := ⟨(R.left + R.right) / 2, (R.top + R.bottom) / 2⟩

/-- BaseShape.get_connection_point (identical code in
DiagramText.get_connection_point): pick the midpoint of the edge of the
scene bounding rect facing the target position. -/
def get_connection_point (R : RectF) (target : Pt) : Pt :=
  let c := R.center
  let dx := target.x - c.x
  let dy := target.y - c.y
  if |dx| > |dy| then
    if dx > 0 then ⟨R.right, c.y⟩ else ⟨R.left, c.y⟩
  else
    if dy > 0 then ⟨c.x, R.bottom⟩ else ⟨c.x, R.top⟩

/-- Shape variants of the non-text diagram shapes (DiagramRect, DiagramOval,
DiagramDiamond, DiagramTriangle, DiagramTriangleInverted,
DiagramTriangleLeft, DiagramTriangleRight). -/
inductive SVariant where
  | rect
  | oval
  | diamond
  | triangle
  | triangleInverted
  | triangleLeft
  | triangleRight
deriving DecidableEq, Repr

/-- Default constructor size (width, height) of each shape variant, from
the keyword defaults of the DiagramRect/Oval/Diamond/Triangle/... __init__
signatures. -/
def default_size : SVariant → ℚ × ℚ
  | .rect => (100, 60)
  | .oval => (100, 60)
  | .diamond => (100, 60)
  | .triangle => (100, 80)
  | .triangleInverted => (100, 80)
  | .triangleLeft => (80, 100)
  | .triangleRight => (80, 100)

/-- State of a non-text diagram shape relevant to the scene graph:
position, size, fill color, optional label with its color and font size,
and z-order. -/
structure ShapeItem where
  variant : SVariant
  x : ℚ
  y : ℚ
  width : ℚ
  height : ℚ
  color : Col
  label : Option String
  labelColor : Col
  labelFontSize : Int
  z : ℚ
deriving DecidableEq, Repr

/-- State of a DiagramText item: position, text, text color, font
settings, and z-order. -/
structure TextItem where
  x : ℚ
  y : ℚ
  text : String
  color : Col
  fontFamily : String
  fontSize : Int
  bold : Bool
  underline : Bool
  z : ℚ
deriving DecidableEq, Repr

/-- A scene item that is a shape or a text label (arrows are kept
separately, as in the serializer's two passes). -/
inductive SceneItem where
  | shape (s : ShapeItem)
  | text (t : TextItem)
deriving DecidableEq, Repr

/-- Construction of a non-text shape: BaseShape.init_shape sets the color,
no label, contrasting label color, label font size 14; the z value of a
fresh QGraphicsItem is 0. -/
def mk_shape (v : SVariant) (x y w h : ℚ) (c : Col) : ShapeItem :=
  ⟨v, x, y, w, h, c, none, get_contrasting_color c, 14, 0⟩

/-- Construction of a DiagramText: stores text, color and font settings
and sets z to 1 (setZValue(1) in DiagramText.__init__). -/
def mk_text (x y : ℚ) (text : String) (fontFamily : String) (fontSize : Int)
    (c : Col) (bold underline : Bool) : TextItem :=
  ⟨x, y, text, c, fontFamily, fontSize, bold, underline, 1⟩

/-- Tool modes of DiagramScene (the MODE_* string constants). -/
inductive Mode where
  | selectMode
  | rectangleMode
  | ovalMode
  | diamondMode
  | triangleMode
  | triangleInvertedMode
  | triangleLeftMode
  | triangleRightMode
  | textMode
  | arrowMode
  | twoWayMode
deriving DecidableEq, Repr

/-- The scene's current text settings (DiagramScene.text_settings). -/
structure TextSettings where
  font_family : String
  font_size : Int
  bold : Bool
  underline : Bool
deriving DecidableEq, Repr

/-- DiagramScene._create_shape: build the item for the current mode at
(x, y), with the constructor default sizes, the current fill color, and
for text mode the current text settings; Select/Arrow/Two-Way modes
produce nothing. -/
def create_shape (mode : Mode) (settings : TextSettings) (color : Col)
    (x y : ℚ) : Option SceneItem :=
  match mode with
  | .rectangleMode => some (.shape (mk_shape .rect x y 100 60 color))
  | .ovalMode => some (.shape (mk_shape .oval x y 100 60 color))
  | .diamondMode => some (.shape (mk_shape .diamond x y 100 60 color))
  | .triangleMode => some (.shape (mk_shape .triangle x y 100 80 color))
  | .triangleInvertedMode =>
      some (.shape (mk_shape .triangleInverted x y 100 80 color))
  | .triangleLeftMode => some (.shape (mk_shape .triangleLeft x y 80 100 color))
  | .triangleRightMode =>
      some (.shape (mk_shape .triangleRight x y 80 100 color))
  | .textMode =>
      some (.text (mk_text x y "Text" settings.font_family settings.font_size
        color settings.bold settings.underline))
  | _ => none

/-- DiagramScene.mouseDoubleClickEvent: in Select/Arrow/Two-Way mode the
event is passed through; otherwise, when no shape is under the cursor, a
new item is created at the click position shifted by (-50, -30).
shape_at is whether get_shape_at(pos) found an item. -/
def mouse_double_click (mode : Mode) (settings : TextSettings) (color : Col)
    (pos : Pt) (shape_at : Bool) : Option SceneItem :=
  if mode = .selectMode ∨ mode = .arrowMode ∨ mode = .twoWayMode then none
  else if shape_at then none
  else create_shape mode settings color (pos.x - 50) (pos.y - 30)

/-- Position of a scene item. -/
def SceneItem.xy : SceneItem → ℚ × ℚ
  | .shape s => (s.x, s.y)
  | .text t => (t.x, t.y)

/-- Whether an item's variant is the one a creation mode produces. -/
def mode_matches : Mode → SceneItem → Bool
  | .rectangleMode, .shape s => s.variant = .rect
  | .ovalMode, .shape s => s.variant = .oval
  | .diamondMode, .shape s => s.variant = .diamond
  | .triangleMode, .shape s => s.variant = .triangle
  | .triangleInvertedMode, .shape s => s.variant = .triangleInverted
  | .triangleLeftMode, .shape s => s.variant = .triangleLeft
  | .triangleRightMode, .shape s => s.variant = .triangleRight
  | .textMode, .text _ => true
  | _, _ => false

/-- Whether a freshly created item carries the current fill color (shapes)
or the current color and text-format defaults (text items). -/
def styled_from : SceneItem → Col → TextSettings → Bool
  | .shape s, c, _ => s.color = c
  | .text t, c, st =>
      t.color = c ∧ t.fontFamily = st.font_family ∧ t.fontSize = st.font_size
        ∧ t.bold = st.bold ∧ t.underline = st.underline

/-- An arrow in the scene graph: endpoints as indices into the scene's
item list (the code holds object references), direction flag, color,
optional label with color and font size, and z-order (set to -1 by
Arrow.__init__, but mutable through the scene's z-order keys). -/
structure ArrowItem where
  startIdx : Nat
  endIdx : Nat
  bidirectional : Bool
  color : Col
  label : Option String
  labelColor : Col
  labelFontSize : Int
  z : ℚ
deriving DecidableEq, Repr

/-- A scene as the serializer sees it: the shape/text items in stacking
order, and the arrows. -/
structure SceneModel where
  items : List SceneItem
  arrows : List ArrowItem
deriving DecidableEq, Repr

/-- The serializer handles exactly the types imported by export.py:
DiagramRect, DiagramOval, DiagramDiamond, DiagramTriangle (and
DiagramText).  The other triangle variants fail its isinstance test. -/
def serializable_variant : SVariant → Bool
  | .rect => true
  | .oval => true
  | .diamond => true
  | .triangle => true
  | _ => false

/-- The class name recorded in the 'type' field. -/
def variant_type_name : SVariant → String
  | .rect => "DiagramRect"
  | .oval => "DiagramOval"
  | .diamond => "DiagramDiamond"
  | .triangle => "DiagramTriangle"
  | .triangleInverted => "DiagramTriangleInverted"
  | .triangleLeft => "DiagramTriangleLeft"
  | .triangleRight => "DiagramTriangleRight"

/-- Serialized record of a non-text shape (the dict built in
ExportManager._serialize_scene). -/
structure SerShape where
  id : Nat
  typeName : String
  x : ℚ
  y : ℚ
  width : ℚ
  height : ℚ
  color : Col
  label : Option String
  label_color : Col
  label_font_size : Int
  z : ℚ
deriving DecidableEq, Repr

/-- Serialized record of a DiagramText. -/
structure SerText where
  id : Nat
  x : ℚ
  y : ℚ
  text : String
  color : Col
  font_family : String
  font_size : Int
  bold : Bool
  underline : Bool
  z : ℚ
deriving DecidableEq, Repr

/-- An entry of the serialized 'shapes' list. -/
inductive SerItem where
  | shapeD (d : SerShape)
  | textD (d : SerText)
deriving DecidableEq, Repr

/-- Serialized record of an arrow. -/
structure SerArrow where
  start_id : Nat
  end_id : Nat
  bidirectional : Bool
  color : Col
  label : Option String
  label_color : Col
  label_font_size : Int
deriving DecidableEq, Repr

/-- The serialized document (the dict with 'version', 'shapes', 'arrows'). -/
structure SceneData where
  version : Nat
  shapes : List SerItem
  arrows : List SerArrow
deriving DecidableEq, Repr

/-- First pass of ExportManager._serialize_scene: walk the items, emit a
record for each serializable one with consecutive ids starting at nextId,
and record for every item its assigned id (none when the item was
skipped), mirroring the shape_ids map.  Building a shape's record reads
its label with item.label.text(); shape labels are QGraphicsTextItem,
which has no text() method (only toPlainText()), so a serializable shape
whose label is present raises AttributeError and serialization aborts
there — the error outcome of this function.  For an absent label the
conditional expression stores None without calling text(). -/
def serialize_items :
    List SceneItem → Nat → Except Unit (List SerItem × List (Option Nat))
  | [], _ => .ok ([], [])
  | .shape s :: rest, nextId =>
      if serializable_variant s.variant then
        match s.label with
        | some _ => .error ()
        | none =>
            let d : SerShape := ⟨nextId, variant_type_name s.variant, s.x,
              s.y, s.width, s.height, s.color, none, s.labelColor,
              s.labelFontSize, s.z⟩
            match serialize_items rest (nextId + 1) with
            | .ok p => .ok (.shapeD d :: p.1, some nextId :: p.2)
            | .error e => .error e
      else
        match serialize_items rest nextId with
        | .ok p => .ok (p.1, none :: p.2)
        | .error e => .error e
  | .text t :: rest, nextId =>
      let d : SerText := ⟨nextId, t.x, t.y, t.text, t.color, t.fontFamily,
        t.fontSize, t.bold, t.underline, t.z⟩
      match serialize_items rest (nextId + 1) with
      | .ok p => .ok (.textD d :: p.1, some nextId :: p.2)
      | .error e => .error e

/-- Second pass of ExportManager._serialize_scene: an arrow is emitted
only when both endpoints received an id. -/
def serialize_arrows (ids : List (Option Nat)) (arrows : List ArrowItem) :
    List SerArrow :=
  arrows.filterMap fun a =>
    match ids.getD a.startIdx none, ids.getD a.endIdx none with
    | some i, some j =>
        some ⟨i, j, a.bidirectional, a.color, a.label, a.labelColor,
          a.labelFontSize⟩
    | _, _ => none

/-- ExportManager._serialize_scene: the shape pass runs first and its
AttributeError (labeled non-text shape) propagates; only when it
completes does the arrow pass produce the document. -/
def serialize_scene (sc : SceneModel) : Except Unit SceneData :=
  match serialize_items sc.items 0 with
  | .error e => .error e
  | .ok p => .ok ⟨1, p.1, serialize_arrows p.2 sc.arrows⟩

/-- Inverse of variant_type_name on the four class names the deserializer
recognizes. -/
def type_name_variant : String → Option SVariant
  | "DiagramRect" => some .rect
  | "DiagramOval" => some .oval
  | "DiagramDiamond" => some .diamond
  | "DiagramTriangle" => some .triangle
  | _ => none

/-- Truthiness of an optional label in Python: shape_data.get('label') is
falsy for a missing label and for the empty string. -/
def truthy_label : Option String → Option String
  | some s => if s = "" then none else some s
  | none => none

/-- First pass of ExportManager._deserialize_scene: rebuild the items,
recording id-to-index associations for the shape_map; records with an
unrecognized type create nothing.  A rebuilt shape starts from the
constructor state and then receives z, label color, label font size, and
(when truthy) its label. -/
def deserialize_items : List SerItem → Nat → List SceneItem × List (Nat × Nat)
  | [], _ => ([], [])
  | .shapeD d :: rest, idx =>
      match type_name_variant d.typeName with
      | some v =>
          let base := mk_shape v d.x d.y d.width d.height d.color
          let item := { base with
            z := d.z,
            labelColor := d.label_color,
            labelFontSize := d.label_font_size,
            label := truthy_label d.label }
          let p := deserialize_items rest (idx + 1)
          (.shape item :: p.1, (d.id, idx) :: p.2)
      | none => deserialize_items rest idx
  | .textD d :: rest, idx =>
      let base := mk_text d.x d.y d.text d.font_family d.font_size d.color
        d.bold d.underline
      let item := { base with z := d.z }
      let p := deserialize_items rest (idx + 1)
      (.text item :: p.1, (d.id, idx) :: p.2)

/-- Lookup in the rebuilt shape_map. -/
def lookup_id (m : List (Nat × Nat)) (i : Nat) : Option Nat :=
  (m.find? fun e => e.1 = i).map fun e => e.2

/-- Second pass of ExportManager._deserialize_scene: an arrow record whose
two ids are both in the shape_map becomes an Arrow (z-order -1 from its
constructor), then gets its label color, label font size, and, when
truthy, its label. -/
def deserialize_arrows (m : List (Nat × Nat)) (ser : List SerArrow) :
    List ArrowItem :=
  ser.filterMap fun d =>
    match lookup_id m d.start_id, lookup_id m d.end_id with
    | some si, some ei =>
        some ⟨si, ei, d.bidirectional, d.color, truthy_label d.label,
          d.label_color, d.label_font_size, -1⟩
    | _, _ => none

/-- ExportManager._deserialize_scene (after clear_all the scene is empty,
so the result is exactly the rebuilt content). -/
def deserialize_scene (d : SceneData) : SceneModel :=
  let p := deserialize_items d.shapes 0
  ⟨p.1, deserialize_arrows p.2 d.arrows⟩

/-- An item the serializer keeps: any text, or a shape of a serializable
variant. -/
def item_serializable : SceneItem → Bool
  | .shape s => serializable_variant s.variant
  | .text _ => true

/-- A label that survives the truthiness test: absent or non-empty. -/
def label_ok : Option String → Bool
  | some s => s ≠ ""
  | none => true

/-- An item the serializer can read without raising: non-text shapes must
carry no label, since reading one calls the missing
QGraphicsTextItem.text(); text items read their own toPlainText(). -/
def item_label_none : SceneItem → Bool
  | .shape s => s.label.isNone
  | .text _ => true

/-- An item whose record construction raises AttributeError: a shape the
isinstance filter accepts whose label object is present. -/
def shape_label_crash : SceneItem → Bool
  | .shape s => serializable_variant s.variant && s.label.isSome
  | .text _ => false

/-- Reset an arrow's z-order to the constructor value -1. -/
def arrow_reset_z (a : ArrowItem) : ArrowItem := { a with z := -1 }

/-- The shape_map a full round trip produces when every item serializes:
k consecutive ids starting at n, each mapped to itself. -/
def idx_pairs (n : Nat) : Nat → List (Nat × Nat)
  | 0 => []
  | k + 1 => (n, n) :: idx_pairs (n + 1) k

/-- BaseShape.MIN_WIDTH. -/
def MIN_WIDTH : ℚ := 40

/-- BaseShape.MIN_HEIGHT. -/
def MIN_HEIGHT : ℚ := 30

/-- DiagramText.MIN_WIDTH. -/
def TEXT_MIN_WIDTH : ℚ := 20

/-- DiagramText.MIN_HEIGHT. -/
def TEXT_MIN_HEIGHT : ℚ := 20

/-- The four ResizeHandle position constants. -/
inductive HandlePos where
  | topLeft
  | topRight
  | bottomLeft
  | bottomRight
deriving DecidableEq, Repr

/-- The candidate rectangle each handle_resize builds: the dragged
corner is replaced by the handle's new position, the other corners stay
(the QRectF two-point constructors in the four branches). -/
def candidate_rect (rect : RectF) (hp : HandlePos) (np : Pt) : RectF :=
  match hp with
  | .topLeft => ⟨np.x, np.y, rect.right, rect.bottom⟩
  | .topRight => ⟨rect.left, np.y, np.x, rect.bottom⟩
  | .bottomLeft => ⟨np.x, rect.top, rect.right, np.y⟩
  | .bottomRight => ⟨rect.left, rect.top, np.x, np.y⟩

/-- The corner of a rectangle a handle position names. -/
def RectF.corner (R : RectF) : HandlePos → Pt
  | .topLeft => ⟨R.left, R.top⟩
  | .topRight => ⟨R.right, R.top⟩
  | .bottomLeft => ⟨R.left, R.bottom⟩
  | .bottomRight => ⟨R.right, R.bottom⟩

/-- The diagonally opposite handle position. -/
def HandlePos.opposite : HandlePos → HandlePos
  | .topLeft => .bottomRight
  | .topRight => .bottomLeft
  | .bottomLeft => .topRight
  | .bottomRight => .topLeft

/-- Which resize implementation a shape runs: DiagramRect and DiagramOval
test the raw candidate and then store its normalization; the polygon
shapes (diamond and the four triangles) normalize first and test the
normalized rectangle. -/
inductive ResizeKind where
  | rectLike
  | polyLike
deriving DecidableEq, Repr

/-- Geometry state a shape carries through the resize protocol: its
bounding rectangle, the stored shape_width/shape_height, its position,
and the _resizing flag set by start_resize/end_resize. -/
structure ResizeState where
  rect : RectF
  shape_width : ℚ
  shape_height : ℚ
  pos : Pt
  resizing : Bool
deriving DecidableEq, Repr

/-- DiagramRect.handle_resize (same code in DiagramOval): no effect unless
resizing; the raw candidate must meet the minima, then the normalized
rectangle is stored and shape_width/shape_height take the raw candidate's
dimensions. -/
def rect_handle_resize (s : ResizeState) (hp : HandlePos) (np : Pt) :
    ResizeState :=
  if s.resizing = false then s
  else
    let nr := candidate_rect s.rect hp np
    if MIN_WIDTH ≤ nr.width ∧ MIN_HEIGHT ≤ nr.height then
      { s with rect := nr.normalized, shape_width := nr.width,
               shape_height := nr.height }
    else s

/-- DiagramDiamond.handle_resize (same code in the four triangle shapes):
no effect unless resizing; the candidate is normalized first and the
normalized rectangle must meet the minima. -/
def poly_handle_resize (s : ResizeState) (hp : HandlePos) (np : Pt) :
    ResizeState :=
  if s.resizing = false then s
  else
    let nr := (candidate_rect s.rect hp np).normalized
    if MIN_WIDTH ≤ nr.width ∧ MIN_HEIGHT ≤ nr.height then
      { s with rect := nr, shape_width := nr.width, shape_height := nr.height }
    else s

/-- handle_resize dispatched on the shape's implementation family. -/
def handle_resize (k : ResizeKind) (s : ResizeState) (hp : HandlePos)
    (np : Pt) : ResizeState :=
  match k with
  | .rectLike => rect_handle_resize s hp np
  | .polyLike => poly_handle_resize s hp np

/-- Operations a shape goes through after creation: moves (setPos /
item drag), the start_resize/end_resize bracket of the handle protocol,
and handle_resize calls. -/
inductive ShapeOp where
  | move (d : Pt)
  | startResize
  | endResize
  | resize (hp : HandlePos) (np : Pt)

/-- Apply one operation to a shape's geometry state. -/
def apply_op (k : ResizeKind) (s : ResizeState) : ShapeOp → ResizeState
  | .move d => { s with pos := ⟨s.pos.x + d.x, s.pos.y + d.y⟩ }
  | .startResize => { s with resizing := true }
  | .endResize => { s with resizing := false }
  | .resize hp np => handle_resize k s hp np

/-- Apply a sequence of operations. -/
def run_ops (k : ResizeKind) (s : ResizeState) (ops : List ShapeOp) :
    ResizeState :=
  ops.foldl (apply_op k) s

/-- Initial geometry state of a freshly constructed shape of size w × h at
(x, y): bounding rect (0,0,w,h) in local coordinates, not resizing. -/
def init_resize_state (x y w h : ℚ) : ResizeState :=
  ⟨⟨0, 0, w, h⟩, w, h, ⟨x, y⟩, false⟩

/-- Incident-arrow lists of the shapes, keyed by shape id (each shape's
self.arrows, holding references modelled as arrow ids). -/
abbrev ShapeHeap := List (Nat × List Nat)

/-- BaseShape.add_arrow: append unless already present. -/
def add_arrow (l : List Nat) (aid : Nat) : List Nat :=
  if aid ∈ l then l else l ++ [aid]

/-- BaseShape.remove_arrow: remove the (first) occurrence if present. -/
def remove_arrow (l : List Nat) (aid : Nat) : List Nat :=
  l.erase aid

/-- add_arrow applied to one shape of the heap. -/
def heap_add_arrow (h : ShapeHeap) (sid aid : Nat) : ShapeHeap :=
  h.map fun e => if e.1 = sid then (e.1, add_arrow e.2 aid) else e

/-- remove_arrow applied to one shape of the heap. -/
def heap_remove_arrow (h : ShapeHeap) (sid aid : Nat) : ShapeHeap :=
  h.map fun e => if e.1 = sid then (e.1, remove_arrow e.2 aid) else e

/-- The arrow list of a shape in the heap. -/
def heap_arrows (h : ShapeHeap) (sid : Nat) : List Nat :=
  ((h.find? fun e => e.1 = sid).map fun e => e.2).getD []

/-- Arrow.__init__, as far as endpoint registration goes: the field
assignments always happen; then start_shape.add_arrow(self) runs, which
raises AttributeError when start_shape is None; then
end_shape.add_arrow(self) runs, likewise raising on None.  The result is
the heap as left behind plus a flag telling whether the constructor
completed without an exception. -/
def arrow_init (aid : Nat) (startS endS : Option Nat) (h : ShapeHeap) :
    ShapeHeap × Bool :=
  match startS with
  | none => (h, false)
  | some sid =>
      let h1 := heap_add_arrow h sid aid
      match endS with
      | none => (h1, false)
      | some eid => (heap_add_arrow h1 eid aid, true)

/-- Arrow.detach: remove self from the incident list of each non-null
endpoint. -/
def arrow_detach (aid : Nat) (startS endS : Option Nat) (h : ShapeHeap) :
    ShapeHeap :=
  let h1 := match startS with
    | some sid => heap_remove_arrow h sid aid
    | none => h
  match endS with
  | some eid => heap_remove_arrow h1 eid aid
  | none => h1

/-- A shape as the deletion logic sees it: its id and its incident-arrow
list (self.arrows). -/
structure SceneShape where
  sid : Nat
  arrows : List Nat
deriving DecidableEq, Repr

/-- An arrow as the deletion logic sees it: its id and its endpoints
(None after a shape reference was dropped). -/
structure SceneArrow where
  aid : Nat
  startS : Option Nat
  endS : Option Nat
deriving DecidableEq, Repr

/-- Scene state for deletion: the shape and arrow objects (which persist
as Python objects independently of scene membership) and the ids
currently in the scene. -/
structure SceneSt where
  shapes : List SceneShape
  arrowObjs : List SceneArrow
  sceneIds : List Nat
deriving DecidableEq, Repr

/-- Arrow.detach by arrow id inside the scene state: erase the id from
each non-null endpoint's incident list. -/
def st_detach (st : SceneSt) (aid : Nat) : SceneSt :=
  match st.arrowObjs.find? fun a => a.aid = aid with
  | none => st
  | some a =>
      let upd := fun (shs : List SceneShape) (o : Option Nat) =>
        match o with
        | some sid => shs.map fun s =>
            if s.sid = sid then { s with arrows := s.arrows.erase aid } else s
        | none => shs
      { st with shapes := upd (upd st.shapes a.startS) a.endS }

/-- QGraphicsScene.removeItem: the item leaves the scene (the scene's
item set holds each item at most once, so removal by id). -/
def st_remove_item (st : SceneSt) (iid : Nat) : SceneSt :=
  { st with sceneIds := st.sceneIds.filter fun i => i ≠ iid }

/-- The inner loop of DiagramScene._delete_selected for a shape: iterate
over a copy of its incident list, detaching and removing each arrow. -/
def remove_arrow_list (st : SceneSt) : List Nat → SceneSt
  | [] => st
  | aid :: rest => remove_arrow_list (st_remove_item (st_detach st aid) aid) rest

/-- One iteration of DiagramScene._delete_selected: a shape (it has an
'arrows' attribute) first detaches and removes every arrow of its
incident list, then is removed; an arrow (it has 'detach') is detached
then removed; anything else is just removed. -/
def delete_item (st : SceneSt) (iid : Nat) : SceneSt :=
  match st.shapes.find? fun s => s.sid = iid with
  | some s => st_remove_item (remove_arrow_list st s.arrows) iid
  | none =>
      match st.arrowObjs.find? fun a => a.aid = iid with
      | some _ => st_remove_item (st_detach st iid) iid
      | none => st_remove_item st iid

/-- DiagramScene._delete_selected over the selected ids. -/
def delete_selected (st : SceneSt) (sel : List Nat) : SceneSt :=
  sel.foldl delete_item st

/-- Whether an arrow references the shape id as one of its endpoints. -/
def arrow_refs (a : SceneArrow) (sid : Nat) : Bool :=
  a.startS = some sid ∨ a.endS = some sid

/-- State of the arrow-tool click machine in DiagramScene: the pending
start shape (_arrow_start_shape), the selected shape ids, the current
color, and the arrows created so far. -/
structure ArrowToolState where
  pending : Option Nat
  selectedIds : List Nat
  currentColor : Col
  created : List (Nat × Nat × Bool × Col)
deriving DecidableEq, Repr

/-- setSelected(True) on a shape id: selection is a set. -/
def select_id (l : List Nat) (sid : Nat) : List Nat :=
  if sid ∈ l then l else l ++ [sid]

/-- setSelected(False) on a shape id. -/
def deselect_id (l : List Nat) (sid : Nat) : List Nat :=
  l.filter fun i => i ≠ sid

/-- What a left click in Arrow / Two-Way mode lands on. -/
inductive ClickTarget where
  | onShape (sid : Nat)
  | empty
deriving DecidableEq, Repr

/-- The Arrow/Two-Way branch of DiagramScene.mousePressEvent: first click
on a shape records it as pending and selects it; a second click on the
same shape cancels; a second click on a different shape creates the arrow
(bidirectional exactly in Two-Way mode, with the current color) and
clears the pending selection; a click on empty space clears any pending
selection. -/
def mouse_press_arrow_mode (bidirectional : Bool) (st : ArrowToolState)
    (t : ClickTarget) : ArrowToolState :=
  match t with
  | .onShape sid =>
      match st.pending with
      | none =>
          { st with pending := some sid,
                    selectedIds := select_id st.selectedIds sid }
      | some a =>
          if sid ≠ a then
            { st with
              created := st.created ++ [(a, sid, bidirectional, st.currentColor)],
              selectedIds := deselect_id st.selectedIds a,
              pending := none }
          else
            { st with selectedIds := deselect_id st.selectedIds a,
                      pending := none }
  | .empty =>
      match st.pending with
      | some a =>
          { st with selectedIds := deselect_id st.selectedIds a,
                    pending := none }
      | none => { st with pending := none }

/-- A left click handled by the Arrow/Two-Way branch: the bidirectional
flag passed to the Arrow constructor is current_mode == MODE_ARROW_BIDIR. -/
def arrow_mode_click (mode : Mode) (st : ArrowToolState) (t : ClickTarget) :
    ArrowToolState :=
  mouse_press_arrow_mode (mode = Mode.twoWayMode) st t

/-- C2: get_connection_point returns the midpoint of the right edge when
|dx| > |dy| and dx > 0, of the left edge when |dx| > |dy| and dx ≤ 0, of
the bottom edge when |dx| ≤ |dy| and dy > 0, and of the top edge
otherwise, where (dx, dy) is the offset of the target from the center of
the scene bounding rectangle R. -/
theorem C2_connection_point (R : RectF) (T : Pt) :
    (|T.x - R.center.x| > |T.y - R.center.y| → T.x - R.center.x > 0 →
      get_connection_point R T = ⟨R.right, (R.top + R.bottom) / 2⟩) ∧
    (|T.x - R.center.x| > |T.y - R.center.y| → T.x - R.center.x ≤ 0 →
      get_connection_point R T = ⟨R.left, (R.top + R.bottom) / 2⟩) ∧
    (¬ |T.x - R.center.x| > |T.y - R.center.y| → T.y - R.center.y > 0 →
      get_connection_point R T = ⟨(R.left + R.right) / 2, R.bottom⟩) ∧
    (¬ |T.x - R.center.x| > |T.y - R.center.y| → ¬ T.y - R.center.y > 0 →
      get_connection_point R T = ⟨(R.left + R.right) / 2, R.top⟩) := by
  unfold get_connection_point RectF.center
  refine ⟨?_, ?_, ?_, ?_⟩ <;> intro h1 h2 <;> simp only [RectF.center] at h1 h2 ⊢
  · rw [if_pos h1, if_pos h2]
  · rw [if_pos h1, if_neg (by exact not_lt.mpr h2)]
  · rw [if_neg h1, if_pos h2]
  · rw [if_neg h1, if_neg h2]

/-- Witness for C2: the claim's concrete example, a shape with bounding
rect (50,70)-(150,130) (center (100,100)) and target (200,100) yields the
right-edge midpoint (150,100). -/
theorem C2_connection_point_witness :
    |(200 : ℚ) - (RectF.mk 50 70 150 130).center.x| >
        |(100 : ℚ) - (RectF.mk 50 70 150 130).center.y| ∧
    (200 : ℚ) - (RectF.mk 50 70 150 130).center.x > 0 ∧
    get_connection_point ⟨50, 70, 150, 130⟩ ⟨200, 100⟩ = ⟨150, 100⟩ := by
  have hx : |(200 : ℚ) - (RectF.mk 50 70 150 130).center.x| >
      |(100 : ℚ) - (RectF.mk 50 70 150 130).center.y| := by
    simp only [RectF.center]; norm_num
  have hd : (200 : ℚ) - (RectF.mk 50 70 150 130).center.x > 0 := by
    simp only [RectF.center]; norm_num
  have h := (C2_connection_point ⟨50, 70, 150, 130⟩ ⟨200, 100⟩).1 hx hd
  exact ⟨hx, hd, by rw [h]; simp only [Pt.mk.injEq]; norm_num⟩

/-- Counterexample for C9: in Triangle mode (default size 100 x 80) a
double-click on empty canvas at (0,0) creates the shape at (-50,-30),
not at (-50,-40) as "offset by half that variant's default width and
height" would demand. -/
theorem C9_counterexample :
    mouse_double_click .triangleMode ⟨"Arial", 14, false, false⟩
        ⟨52, 152, 219⟩ ⟨0, 0⟩ false
      = some (.shape (mk_shape .triangle (-50) (-30) 100 80 ⟨52, 152, 219⟩)) ∧
    (-30 : ℚ) ≠ 0 - (default_size .triangle).2 / 2 := by
  constructor
  · simp only [mouse_double_click, create_shape, reduceCtorEq, or_self,
      false_or, if_false, Bool.false_eq_true]
    norm_num [mk_shape]
  · simp only [default_size]
    norm_num

/-- C9 amended: for every tool mode that is not Select, Arrow, or Two-Way,
a double-click on an existing shape creates nothing, and a double-click on
empty canvas creates exactly one item of the mode's variant at the click
position offset by the fixed amount (-50, -30) (half the 100 x 60
rectangle/oval/diamond default, for every variant), carrying the current
fill color, and for Text mode the current text-format defaults. -/
theorem C9_double_click_create (mode : Mode) (settings : TextSettings)
    (color : Col) (pos : Pt) (shape_at : Bool)
    (h1 : mode ≠ .selectMode) (h2 : mode ≠ .arrowMode)
    (h3 : mode ≠ .twoWayMode) :
    (shape_at = true →
      mouse_double_click mode settings color pos shape_at = none) ∧
    (shape_at = false →
      (mouse_double_click mode settings color pos shape_at).isSome = true) ∧
    (∀ it, mouse_double_click mode settings color pos shape_at = some it →
      it.xy = (pos.x - 50, pos.y - 30) ∧ mode_matches mode it = true ∧
      styled_from it color settings = true) := by
  cases mode
  case selectMode => exact absurd rfl h1
  case arrowMode => exact absurd rfl h2
  case twoWayMode => exact absurd rfl h3
  all_goals
    (refine ⟨fun hs => ?_, fun hs => ?_, fun it hit => ?_⟩
     · subst hs
       simp [mouse_double_click]
     · subst hs
       simp [mouse_double_click, create_shape]
     · cases shape_at
       · simp only [mouse_double_click, create_shape, reduceCtorEq, or_self,
           false_or, if_false, Bool.false_eq_true, Option.some.injEq] at hit
         subst hit
         refine ⟨by simp [SceneItem.xy, mk_shape, mk_text], ?_, ?_⟩ <;>
           simp [mode_matches, styled_from, mk_shape, mk_text]
       · simp [mouse_double_click] at hit)

/-- Witness for C9: Rectangle mode, double-click at (100, 100) on empty
canvas creates an item. -/
theorem C9_double_click_create_witness :
    Mode.rectangleMode ≠ Mode.selectMode ∧
    Mode.rectangleMode ≠ Mode.arrowMode ∧
    Mode.rectangleMode ≠ Mode.twoWayMode ∧
    (mouse_double_click .rectangleMode ⟨"Arial", 14, false, false⟩
        ⟨52, 152, 219⟩ ⟨100, 100⟩ false).isSome = true :=
  ⟨by decide, by decide, by decide,
    (C9_double_click_create .rectangleMode ⟨"Arial", 14, false, false⟩
        ⟨52, 152, 219⟩ ⟨100, 100⟩ false (by decide) (by decide)
        (by decide)).2.1 rfl⟩

/-- C8: in Arrow or Two-Way mode the click state machine satisfies: from
idle, clicking shape A enters pending(A) and selects A; from pending(A),
clicking A again returns to idle with A deselected and nothing created;
from pending(A), clicking B with B distinct from A creates exactly one
arrow from A to B, bidirectional exactly when the mode is Two-Way, with
A deselected and the machine idle again; from pending(A), clicking empty
space returns to idle without creating an arrow. -/
theorem C8_arrow_click_machine (mode : Mode) (st : ArrowToolState)
    (A B : Nat) (hmode : mode = .arrowMode ∨ mode = .twoWayMode)
    (hAB : A ≠ B) :
    (st.pending = none →
      (arrow_mode_click mode st (.onShape A)).pending = some A ∧
      A ∈ (arrow_mode_click mode st (.onShape A)).selectedIds ∧
      (arrow_mode_click mode st (.onShape A)).created = st.created) ∧
    (st.pending = some A →
      (arrow_mode_click mode st (.onShape A)).pending = none ∧
      A ∉ (arrow_mode_click mode st (.onShape A)).selectedIds ∧
      (arrow_mode_click mode st (.onShape A)).created = st.created) ∧
    (st.pending = some A →
      (arrow_mode_click mode st (.onShape B)).pending = none ∧
      A ∉ (arrow_mode_click mode st (.onShape B)).selectedIds ∧
      (arrow_mode_click mode st (.onShape B)).created
        = st.created ++ [(A, B, decide (mode = Mode.twoWayMode),
            st.currentColor)] ∧
      ((decide (mode = Mode.twoWayMode) = true) ↔ mode = .twoWayMode)) ∧
    (st.pending = some A →
      (arrow_mode_click mode st .empty).pending = none ∧
      (arrow_mode_click mode st .empty).created = st.created) := by
  refine ⟨fun hp => ?_, fun hp => ?_, fun hp => ?_, fun hp => ?_⟩
  · by_cases hA : A ∈ st.selectedIds <;>
      simp [arrow_mode_click, mouse_press_arrow_mode, hp, select_id, hA]
  · simp [arrow_mode_click, mouse_press_arrow_mode, hp, deselect_id]
  · have hBA : B ≠ A := hAB.symm
    simp [arrow_mode_click, mouse_press_arrow_mode, hp, deselect_id, hBA]
  · simp [arrow_mode_click, mouse_press_arrow_mode, hp]

/-- Witness for C8: in Arrow mode, from idle clicking shape 0 enters
pending(0) with shape 0 selected. -/
theorem C8_arrow_click_machine_witness :
    (ArrowToolState.mk none [] ⟨51, 51, 51⟩ []).pending = none ∧
    ((arrow_mode_click .arrowMode ⟨none, [], ⟨51, 51, 51⟩, []⟩
        (.onShape 0)).pending = some 0 ∧
      0 ∈ (arrow_mode_click .arrowMode ⟨none, [], ⟨51, 51, 51⟩, []⟩
        (.onShape 0)).selectedIds ∧
      (arrow_mode_click .arrowMode ⟨none, [], ⟨51, 51, 51⟩, []⟩
        (.onShape 0)).created = []) :=
  ⟨rfl, (C8_arrow_click_machine .arrowMode ⟨none, [], ⟨51, 51, 51⟩, []⟩ 0 1
    (Or.inl rfl) (by decide)).1 rfl⟩

/-- The arrow id is always a member after add_arrow. -/
theorem mem_add_arrow (l : List Nat) (aid : Nat) : aid ∈ add_arrow l aid := by
  unfold add_arrow
  by_cases hm : aid ∈ l
  · rw [if_pos hm]; exact hm
  · rw [if_neg hm]; simp

/-- heap_add_arrow preserves keys, so find? commutes with it. -/
theorem find?_heap_add_arrow (h : ShapeHeap) (k2 aid k : Nat) :
    (heap_add_arrow h k2 aid).find? (fun e => e.1 = k)
      = (h.find? fun e => e.1 = k).map
          (fun e => if e.1 = k2 then (e.1, add_arrow e.2 aid) else e) := by
  unfold heap_add_arrow
  rw [List.find?_map]
  have hp : ((fun e : Nat × List Nat => decide (e.1 = k)) ∘ fun e =>
        if e.1 = k2 then (e.1, add_arrow e.2 aid) else e)
      = fun e : Nat × List Nat => decide (e.1 = k) := by
    funext e
    by_cases he : e.1 = k2 <;> simp [Function.comp, he]
  rw [hp]

/-- heap_remove_arrow preserves keys, so find? commutes with it. -/
theorem find?_heap_remove_arrow (h : ShapeHeap) (k2 aid k : Nat) :
    (heap_remove_arrow h k2 aid).find? (fun e => e.1 = k)
      = (h.find? fun e => e.1 = k).map
          (fun e => if e.1 = k2 then (e.1, remove_arrow e.2 aid) else e) := by
  unfold heap_remove_arrow
  rw [List.find?_map]
  have hp : ((fun e : Nat × List Nat => decide (e.1 = k)) ∘ fun e =>
        if e.1 = k2 then (e.1, remove_arrow e.2 aid) else e)
      = fun e : Nat × List Nat => decide (e.1 = k) := by
    funext e
    by_cases he : e.1 = k2 <;> simp [Function.comp, he]
  rw [hp]

/-- heap_add_arrow does not change which keys find? can see. -/
theorem find?_isSome_heap_add (h : ShapeHeap) (k2 aid k : Nat) :
    ((heap_add_arrow h k2 aid).find? fun e => e.1 = k).isSome
      = (h.find? fun e => e.1 = k).isSome := by
  rw [find?_heap_add_arrow]
  cases h.find? fun e => e.1 = k <;> rfl

/-- heap_remove_arrow does not change which keys find? can see. -/
theorem find?_isSome_heap_remove (h : ShapeHeap) (k2 aid k : Nat) :
    ((heap_remove_arrow h k2 aid).find? fun e => e.1 = k).isSome
      = (h.find? fun e => e.1 = k).isSome := by
  rw [find?_heap_remove_arrow]
  cases h.find? fun e => e.1 = k <;> rfl

/-- Effect of heap_add_arrow on the incident list of a present shape. -/
theorem heap_arrows_add (h : ShapeHeap) (k2 aid k : Nat)
    (hf : (h.find? fun e => e.1 = k).isSome = true) :
    heap_arrows (heap_add_arrow h k2 aid) k
      = if k = k2 then add_arrow (heap_arrows h k) aid else heap_arrows h k := by
  obtain ⟨e, he⟩ := Option.isSome_iff_exists.mp hf
  have he1 : e.1 = k := by simpa using List.find?_some he
  unfold heap_arrows
  rw [find?_heap_add_arrow, he]
  by_cases hk : k = k2 <;> simp [he1, hk]

/-- Effect of heap_remove_arrow on the incident list of a present shape. -/
theorem heap_arrows_remove (h : ShapeHeap) (k2 aid k : Nat)
    (hf : (h.find? fun e => e.1 = k).isSome = true) :
    heap_arrows (heap_remove_arrow h k2 aid) k
      = if k = k2 then remove_arrow (heap_arrows h k) aid
        else heap_arrows h k := by
  obtain ⟨e, he⟩ := Option.isSome_iff_exists.mp hf
  have he1 : e.1 = k := by simpa using List.find?_some he
  unfold heap_arrows
  rw [find?_heap_remove_arrow, he]
  by_cases hk : k = k2 <;> simp [he1, hk]

/-- Counterexample for C5: Arrow(shape 0, None): the incident set of
shape 0 is modified before the AttributeError from None.add_arrow, so
creation neither is silent (the flag records the raised error) nor leaves
the incident sets untouched. -/
theorem C5_counterexample :
    (arrow_init 7 (some 0) none [(0, []), (1, [])]).2 = false ∧
    (arrow_init 7 (some 0) none [(0, []), (1, [])]).1 ≠ [(0, []), (1, [])] := by
  constructor
  · rfl
  · decide

/-- C5 amended: when both endpoints are non-null the constructor
registers the arrow in both endpoints' incident sets and completes; when
the start endpoint is null it raises before touching any incident set;
when only the end endpoint is null it first registers in the start
endpoint's set and then raises — a null endpoint is never silent. -/
theorem C5_arrow_init (aid sid eid : Nat) (h : ShapeHeap)
    (hs : (h.find? fun e => e.1 = sid).isSome = true)
    (he : (h.find? fun e => e.1 = eid).isSome = true) :
    ((arrow_init aid (some sid) (some eid) h).2 = true ∧
      aid ∈ heap_arrows (arrow_init aid (some sid) (some eid) h).1 sid ∧
      aid ∈ heap_arrows (arrow_init aid (some sid) (some eid) h).1 eid) ∧
    (∀ o, arrow_init aid none o h = (h, false)) ∧
    ((arrow_init aid (some sid) none h).2 = false ∧
      (arrow_init aid (some sid) none h).1 = heap_add_arrow h sid aid) := by
  have hs1 : ((heap_add_arrow h sid aid).find? fun e => e.1 = sid).isSome
      = true := by rw [find?_isSome_heap_add]; exact hs
  have he1 : ((heap_add_arrow h sid aid).find? fun e => e.1 = eid).isSome
      = true := by rw [find?_isSome_heap_add]; exact he
  refine ⟨⟨rfl, ?_, ?_⟩, fun o => rfl, rfl, rfl⟩
  · show aid ∈ heap_arrows (heap_add_arrow (heap_add_arrow h sid aid) eid aid) sid
    rw [heap_arrows_add _ _ _ _ hs1]
    by_cases hq : sid = eid
    · rw [if_pos hq]
      exact mem_add_arrow _ _
    · rw [if_neg hq, heap_arrows_add _ _ _ _ hs, if_pos rfl]
      exact mem_add_arrow _ _
  · show aid ∈ heap_arrows (heap_add_arrow (heap_add_arrow h sid aid) eid aid) eid
    rw [heap_arrows_add _ _ _ _ he1, if_pos rfl]
    exact mem_add_arrow _ _

/-- Witness for C5: shapes 0 and 1 exist; Arrow(0, 1) registers arrow 7
with both. -/
theorem C5_arrow_init_witness :
    (([(0, []), (1, [])] : ShapeHeap).find? fun e => e.1 = 0).isSome = true ∧
    (([(0, []), (1, [])] : ShapeHeap).find? fun e => e.1 = 1).isSome = true ∧
    ((arrow_init 7 (some 0) (some 1) [(0, []), (1, [])]).2 = true ∧
      7 ∈ heap_arrows (arrow_init 7 (some 0) (some 1) [(0, []), (1, [])]).1 0 ∧
      7 ∈ heap_arrows (arrow_init 7 (some 0) (some 1) [(0, []), (1, [])]).1 1) :=
  ⟨by decide, by decide,
    (C5_arrow_init 7 0 1 [(0, []), (1, [])] (by decide) (by decide)).1⟩

/-- remove_arrow eliminates the id from a list holding it at most once. -/
theorem not_mem_remove_arrow (l : List Nat) (aid : Nat)
    (hc : l.count aid ≤ 1) : aid ∉ remove_arrow l aid := by
  unfold remove_arrow
  apply List.count_eq_zero.mp
  have := List.count_erase_self aid l
  omega

/-- remove_arrow never introduces a member. -/
theorem not_mem_remove_arrow_other (l : List Nat) (aid b : Nat)
    (hn : aid ∉ l) : aid ∉ remove_arrow l b :=
  fun hmem => hn (List.mem_of_mem_erase hmem)

/-- heap_remove_arrow is the identity when no matching entry holds the
arrow id. -/
theorem heap_remove_arrow_of_not_mem (h : ShapeHeap) (k aid : Nat)
    (hno : ∀ e ∈ h, e.1 = k → aid ∉ e.2) : heap_remove_arrow h k aid = h := by
  unfold heap_remove_arrow
  induction h with
  | nil => rfl
  | cons e rest ih =>
      simp only [List.map_cons, List.cons.injEq]
      constructor
      · by_cases hek : e.1 = k
        · rw [if_pos hek]
          have hne : aid ∉ e.2 := hno e (List.mem_cons_self e rest) hek
          simp [remove_arrow, List.erase_of_not_mem hne]
        · rw [if_neg hek]
      · exact ih fun e' he' hk => hno e' (List.mem_cons_of_mem _ he') hk

/-- After heap_remove_arrow on key k, no k-keyed entry still holds the id
(each list held it at most once). -/
theorem entries_heap_remove_self (h : ShapeHeap) (k aid : Nat)
    (hc : ∀ e ∈ h, e.2.count aid ≤ 1) :
    ∀ e' ∈ heap_remove_arrow h k aid, e'.1 = k → aid ∉ e'.2 := by
  intro e' he'
  unfold heap_remove_arrow at he'
  obtain ⟨e, hme, rfl⟩ := List.mem_map.mp he'
  intro hk
  by_cases hek : e.1 = k
  · rw [if_pos hek] at hk ⊢
    exact not_mem_remove_arrow _ _ (hc e hme)
  · rw [if_neg hek] at hk ⊢
    exact absurd hk hek

/-- heap_remove_arrow keeps every incident list at count at most one. -/
theorem entries_heap_remove_count (h : ShapeHeap) (k aid : Nat)
    (hc : ∀ e ∈ h, e.2.count aid ≤ 1) :
    ∀ e' ∈ heap_remove_arrow h k aid, e'.2.count aid ≤ 1 := by
  intro e' he'
  unfold heap_remove_arrow at he'
  obtain ⟨e, hme, rfl⟩ := List.mem_map.mp he'
  by_cases hek : e.1 = k
  · rw [if_pos hek]
    show (remove_arrow e.2 aid).count aid ≤ 1
    unfold remove_arrow
    have h1 := List.count_erase_self aid e.2
    have h2 := hc e hme
    omega
  · rw [if_neg hek]
    exact hc e hme

/-- heap_remove_arrow preserves the absence of the id from k-keyed
entries. -/
theorem entries_heap_remove_pres (h : ShapeHeap) (k k2 aid : Nat)
    (hno : ∀ e ∈ h, e.1 = k → aid ∉ e.2) :
    ∀ e' ∈ heap_remove_arrow h k2 aid, e'.1 = k → aid ∉ e'.2 := by
  intro e' he'
  unfold heap_remove_arrow at he'
  obtain ⟨e, hme, rfl⟩ := List.mem_map.mp he'
  intro hk
  by_cases hek : e.1 = k2
  · rw [if_pos hek] at hk ⊢
    exact not_mem_remove_arrow_other _ _ _ (hno e hme hk)
  · rw [if_neg hek] at hk ⊢
    exact hno e hme hk

/-- When no k-keyed entry holds the id, heap_arrows at k does not either. -/
theorem not_mem_heap_arrows_of_entries (h : ShapeHeap) (k aid : Nat)
    (hno : ∀ e ∈ h, e.1 = k → aid ∉ e.2) : aid ∉ heap_arrows h k := by
  unfold heap_arrows
  cases hf : h.find? fun e => e.1 = k with
  | none => simp
  | some e =>
      have hm := List.mem_of_find?_eq_some hf
      have hk : e.1 = k := by simpa using List.find?_some hf
      simpa using hno e hm hk

/-- C6: detach removes the arrow from both endpoints' incident sets; it is
idempotent (a second call, or a call when no incident list still holds the
arrow, changes nothing and raises no error).  Incident lists hold an arrow
at most once because add_arrow refuses duplicates. -/
theorem C6_detach_idempotent (aid : Nat) (s e : Option Nat) (h : ShapeHeap)
    (hc : ∀ en ∈ h, en.2.count aid ≤ 1) :
    (∀ sid, s = some sid → aid ∉ heap_arrows (arrow_detach aid s e h) sid) ∧
    (∀ eid, e = some eid → aid ∉ heap_arrows (arrow_detach aid s e h) eid) ∧
    arrow_detach aid s e (arrow_detach aid s e h) = arrow_detach aid s e h ∧
    ((∀ en ∈ h, aid ∉ en.2) → arrow_detach aid s e h = h) := by
  refine ⟨?_, ?_, ?_, ?_⟩
  all_goals cases s with
    | none => ?_
    | some sid => ?_
  all_goals cases e with
    | none => ?_
    | some eid => ?_
  -- conjunct 1: the start endpoint no longer holds the arrow
  · intro sid hq
    cases hq
  · intro sid hq
    cases hq
  · intro sid' hq
    cases hq
    exact not_mem_heap_arrows_of_entries _ _ _
      (entries_heap_remove_self h sid aid hc)
  · intro sid' hq
    cases hq
    exact not_mem_heap_arrows_of_entries _ _ _
      (entries_heap_remove_pres (heap_remove_arrow h sid aid) sid eid aid
        (entries_heap_remove_self h sid aid hc))
  -- conjunct 2: the end endpoint no longer holds the arrow
  · intro eid hq
    cases hq
  · intro eid' hq
    cases hq
    exact not_mem_heap_arrows_of_entries _ _ _
      (entries_heap_remove_self h eid aid hc)
  · intro eid hq
    cases hq
  · intro eid' hq
    cases hq
    exact not_mem_heap_arrows_of_entries _ _ _
      (entries_heap_remove_self (heap_remove_arrow h sid aid) eid aid
        (entries_heap_remove_count h sid aid hc))
  -- conjunct 3: idempotency
  · rfl
  · show heap_remove_arrow (heap_remove_arrow h eid aid) eid aid
      = heap_remove_arrow h eid aid
    exact heap_remove_arrow_of_not_mem _ _ _
      (entries_heap_remove_self h eid aid hc)
  · show heap_remove_arrow (heap_remove_arrow h sid aid) sid aid
      = heap_remove_arrow h sid aid
    exact heap_remove_arrow_of_not_mem _ _ _
      (entries_heap_remove_self h sid aid hc)
  · show heap_remove_arrow (heap_remove_arrow
        (heap_remove_arrow (heap_remove_arrow h sid aid) eid aid) sid aid)
        eid aid
      = heap_remove_arrow (heap_remove_arrow h sid aid) eid aid
    rw [heap_remove_arrow_of_not_mem _ _ _
      (entries_heap_remove_pres (heap_remove_arrow h sid aid) sid eid aid
        (entries_heap_remove_self h sid aid hc))]
    exact heap_remove_arrow_of_not_mem _ _ _
      (entries_heap_remove_self (heap_remove_arrow h sid aid) eid aid
        (entries_heap_remove_count h sid aid hc))
  -- conjunct 4: a detach that finds nothing to remove is the identity
  · intro _
    rfl
  · intro hno
    exact heap_remove_arrow_of_not_mem _ _ _ fun en hen _ => hno en hen
  · intro hno
    exact heap_remove_arrow_of_not_mem _ _ _ fun en hen _ => hno en hen
  · intro hno
    show heap_remove_arrow (heap_remove_arrow h sid aid) eid aid = h
    rw [heap_remove_arrow_of_not_mem h sid aid fun en hen _ => hno en hen]
    exact heap_remove_arrow_of_not_mem _ _ _ fun en hen _ => hno en hen

/-- Witness for C6: arrow 7 joins shapes 0 and 1; detaching removes it
from both incident lists and a second detach is a no-op. -/
theorem C6_detach_idempotent_witness :
    (∀ en ∈ ([(0, [7]), (1, [7, 9])] : ShapeHeap), en.2.count 7 ≤ 1) ∧
    7 ∉ heap_arrows (arrow_detach 7 (some 0) (some 1)
      [(0, [7]), (1, [7, 9])]) 0 ∧
    7 ∉ heap_arrows (arrow_detach 7 (some 0) (some 1)
      [(0, [7]), (1, [7, 9])]) 1 ∧
    arrow_detach 7 (some 0) (some 1)
        (arrow_detach 7 (some 0) (some 1) [(0, [7]), (1, [7, 9])])
      = arrow_detach 7 (some 0) (some 1) [(0, [7]), (1, [7, 9])] := by
  have hc : ∀ en ∈ ([(0, [7]), (1, [7, 9])] : ShapeHeap),
      en.2.count 7 ≤ 1 := by decide
  have h := C6_detach_idempotent 7 (some 0) (some 1) [(0, [7]), (1, [7, 9])] hc
  exact ⟨hc, h.1 0 rfl, h.2.1 1 rfl, h.2.2.1⟩

/-- One handle_resize call keeps stored dimensions at or above the
minima. -/
theorem handle_resize_min (k : ResizeKind) (s : ResizeState) (hp : HandlePos)
    (np : Pt) (hw : MIN_WIDTH ≤ s.shape_width)
    (hh : MIN_HEIGHT ≤ s.shape_height) :
    MIN_WIDTH ≤ (handle_resize k s hp np).shape_width ∧
    MIN_HEIGHT ≤ (handle_resize k s hp np).shape_height := by
  cases k <;>
    simp only [handle_resize, rect_handle_resize, poly_handle_resize] <;>
    split_ifs with h1 h2 <;>
    first
      | exact ⟨hw, hh⟩
      | exact ⟨h2.1, h2.2⟩

/-- Any operation sequence keeps stored dimensions at or above the
minima. -/
theorem run_ops_min (k : ResizeKind) (ops : List ShapeOp) (s : ResizeState)
    (hw : MIN_WIDTH ≤ s.shape_width) (hh : MIN_HEIGHT ≤ s.shape_height) :
    MIN_WIDTH ≤ (run_ops k s ops).shape_width ∧
    MIN_HEIGHT ≤ (run_ops k s ops).shape_height := by
  induction ops generalizing s with
  | nil => exact ⟨hw, hh⟩
  | cons op rest ih =>
      show MIN_WIDTH ≤ (run_ops k (apply_op k s op) rest).shape_width ∧ _
      cases op with
      | move d => exact ih _ hw hh
      | startResize => exact ih _ hw hh
      | endResize => exact ih _ hw hh
      | resize hp np =>
          obtain ⟨h1, h2⟩ := handle_resize_min k s hp np hw hh
          exact ih _ h1 h2

/-- C3: starting from a creation size at or above the variant minima
(constructor defaults are 100 x 60 or 100 x 80 or 80 x 100), every
sequence of moves, resize brackets and handle_resize calls keeps
width at or above MIN_WIDTH = 40 and height at or above MIN_HEIGHT = 30;
a handle_resize whose candidate rectangle (raw for rect/oval, normalized
for the polygon shapes) falls below a minimum leaves the shape
unchanged.  DiagramText declares minima 20 x 20 and has no resize
handles at all. -/
theorem C3_min_size_invariant (k : ResizeKind) (x y w h : ℚ)
    (ops : List ShapeOp) (hw : MIN_WIDTH ≤ w) (hh : MIN_HEIGHT ≤ h) :
    (MIN_WIDTH ≤ (run_ops k (init_resize_state x y w h) ops).shape_width ∧
     MIN_HEIGHT ≤ (run_ops k (init_resize_state x y w h) ops).shape_height) ∧
    (∀ s : ResizeState, ∀ hp np,
      ((candidate_rect s.rect hp np).width < MIN_WIDTH ∨
        (candidate_rect s.rect hp np).height < MIN_HEIGHT) →
      handle_resize .rectLike s hp np = s) ∧
    (∀ s : ResizeState, ∀ hp np,
      (((candidate_rect s.rect hp np).normalized).width < MIN_WIDTH ∨
        ((candidate_rect s.rect hp np).normalized).height < MIN_HEIGHT) →
      handle_resize .polyLike s hp np = s) ∧
    (MIN_WIDTH = 40 ∧ MIN_HEIGHT = 30 ∧
      TEXT_MIN_WIDTH = 20 ∧ TEXT_MIN_HEIGHT = 20) := by
  refine ⟨?_, ?_, ?_, rfl, rfl, rfl, rfl⟩
  · exact run_ops_min k ops _ hw hh
  · intro s hp np hlt
    simp only [handle_resize, rect_handle_resize]
    split_ifs with h1 h2
    · rfl
    · rcases hlt with hlt | hlt
      · exact absurd h2.1 (not_le.mpr hlt)
      · exact absurd h2.2 (not_le.mpr hlt)
    · rfl
  · intro s hp np hlt
    simp only [handle_resize, poly_handle_resize]
    split_ifs with h1 h2
    · rfl
    · rcases hlt with hlt | hlt
      · exact absurd h2.1 (not_le.mpr hlt)
      · exact absurd h2.2 (not_le.mpr hlt)
    · rfl

/-- Witness for C3: a rectangle created at the 100 x 60 default, resized
through a rejected drag, keeps its dimensions at or above the minima. -/
theorem C3_min_size_invariant_witness :
    MIN_WIDTH ≤ (100 : ℚ) ∧ MIN_HEIGHT ≤ (60 : ℚ) ∧
    (MIN_WIDTH ≤ (run_ops .rectLike (init_resize_state 0 0 100 60)
        [.startResize, .resize .bottomRight ⟨10, 10⟩]).shape_width ∧
     MIN_HEIGHT ≤ (run_ops .rectLike (init_resize_state 0 0 100 60)
        [.startResize, .resize .bottomRight ⟨10, 10⟩]).shape_height) := by
  have hw : MIN_WIDTH ≤ (100 : ℚ) := by norm_num [MIN_WIDTH]
  have hh : MIN_HEIGHT ≤ (60 : ℚ) := by norm_num [MIN_HEIGHT]
  exact ⟨hw, hh,
    (C3_min_size_invariant .rectLike 0 0 100 60
      [.startResize, .resize .bottomRight ⟨10, 10⟩] hw hh).1⟩

/-- Counterexample for C4: a rectangle with rect (0,0)-(100,60), dragged
at its top-left handle to (200,200): the candidate is width -100 so the
raw test fails and nothing happens, although the normalized candidate is
100 x 140, well above the minima — DiagramRect does not apply the
normalized rectangle even though both normalized dimensions meet the
minimum. -/
theorem C4_counterexample :
    MIN_WIDTH ≤
      ((candidate_rect ⟨0, 0, 100, 60⟩ .topLeft ⟨200, 200⟩).normalized).width ∧
    MIN_HEIGHT ≤
      ((candidate_rect ⟨0, 0, 100, 60⟩ .topLeft ⟨200, 200⟩).normalized).height ∧
    rect_handle_resize ⟨⟨0, 0, 100, 60⟩, 100, 60, ⟨0, 0⟩, true⟩ .topLeft
        ⟨200, 200⟩
      = ⟨⟨0, 0, 100, 60⟩, 100, 60, ⟨0, 0⟩, true⟩ ∧
    (⟨⟨0, 0, 100, 60⟩, 100, 60, ⟨0, 0⟩, true⟩ : ResizeState).rect
      ≠ (candidate_rect ⟨0, 0, 100, 60⟩ .topLeft ⟨200, 200⟩).normalized := by
  refine ⟨?_, ?_, ?_, ?_⟩
  · norm_num [candidate_rect, RectF.normalized, RectF.width, MIN_WIDTH]
  · norm_num [candidate_rect, RectF.normalized, RectF.height, MIN_HEIGHT]
  · rw [rect_handle_resize]
    norm_num [candidate_rect, RectF.width, MIN_WIDTH, MIN_HEIGHT]
  · norm_num [candidate_rect, RectF.normalized]

/-- C4 amended: every handle_resize builds its candidate by moving the
dragged corner to the new position while the opposite corner stays put;
the polygon shapes (diamond, triangles) then normalize and apply the
normalized rectangle exactly when both normalized dimensions meet the
minima; DiagramRect and DiagramOval instead test the un-normalized
candidate — so a drag crossing an opposite edge is always rejected there —
and apply its normalization exactly when the raw dimensions meet the
minima.  A rejected drag leaves the shape unchanged and raises no error. -/
theorem C4_handle_resize_normalize (s : ResizeState) (hp : HandlePos)
    (np : Pt) (hr : s.resizing = true) :
    ((candidate_rect s.rect hp np).corner hp = np ∧
     (candidate_rect s.rect hp np).corner hp.opposite
        = s.rect.corner hp.opposite) ∧
    (MIN_WIDTH ≤ ((candidate_rect s.rect hp np).normalized).width ∧
        MIN_HEIGHT ≤ ((candidate_rect s.rect hp np).normalized).height →
      handle_resize .polyLike s hp np
        = { s with
            rect := (candidate_rect s.rect hp np).normalized,
            shape_width := ((candidate_rect s.rect hp np).normalized).width,
            shape_height :=
              ((candidate_rect s.rect hp np).normalized).height }) ∧
    (¬ (MIN_WIDTH ≤ ((candidate_rect s.rect hp np).normalized).width ∧
        MIN_HEIGHT ≤ ((candidate_rect s.rect hp np).normalized).height) →
      handle_resize .polyLike s hp np = s) ∧
    (MIN_WIDTH ≤ (candidate_rect s.rect hp np).width ∧
        MIN_HEIGHT ≤ (candidate_rect s.rect hp np).height →
      handle_resize .rectLike s hp np
        = { s with
            rect := (candidate_rect s.rect hp np).normalized,
            shape_width := (candidate_rect s.rect hp np).width,
            shape_height := (candidate_rect s.rect hp np).height }) ∧
    (¬ (MIN_WIDTH ≤ (candidate_rect s.rect hp np).width ∧
        MIN_HEIGHT ≤ (candidate_rect s.rect hp np).height) →
      handle_resize .rectLike s hp np = s) := by
  refine ⟨⟨?_, ?_⟩, fun hc => ?_, fun hc => ?_, fun hc => ?_, fun hc => ?_⟩
  · cases hp <;> simp [candidate_rect, RectF.corner]
  · cases hp <;> simp [candidate_rect, RectF.corner, HandlePos.opposite]
  · simp only [handle_resize, poly_handle_resize, hr]
    rw [if_neg (by simp), if_pos hc]
  · simp only [handle_resize, poly_handle_resize, hr]
    rw [if_neg (by simp), if_neg hc]
  · simp only [handle_resize, rect_handle_resize, hr]
    rw [if_neg (by simp), if_pos hc]
  · simp only [handle_resize, rect_handle_resize, hr]
    rw [if_neg (by simp), if_neg hc]

/-- Witness for C4: a bottom-right drag of the default rectangle to
(150, 90) meets the raw minima and is applied. -/
theorem C4_handle_resize_normalize_witness :
    (⟨⟨0, 0, 100, 60⟩, 100, 60, ⟨0, 0⟩, true⟩ : ResizeState).resizing
        = true ∧
    MIN_WIDTH ≤ (candidate_rect ⟨0, 0, 100, 60⟩ .bottomRight ⟨150, 90⟩).width ∧
    MIN_HEIGHT ≤
        (candidate_rect ⟨0, 0, 100, 60⟩ .bottomRight ⟨150, 90⟩).height ∧
    handle_resize .rectLike ⟨⟨0, 0, 100, 60⟩, 100, 60, ⟨0, 0⟩, true⟩
        .bottomRight ⟨150, 90⟩
      = { rect := (candidate_rect ⟨0, 0, 100, 60⟩ .bottomRight
            ⟨150, 90⟩).normalized,
          shape_width :=
            (candidate_rect ⟨0, 0, 100, 60⟩ .bottomRight ⟨150, 90⟩).width,
          shape_height :=
            (candidate_rect ⟨0, 0, 100, 60⟩ .bottomRight ⟨150, 90⟩).height,
          pos := ⟨0, 0⟩, resizing := true } := by
  have hw : MIN_WIDTH ≤
      (candidate_rect ⟨0, 0, 100, 60⟩ .bottomRight ⟨150, 90⟩).width := by
    norm_num [candidate_rect, RectF.width, MIN_WIDTH]
  have hh : MIN_HEIGHT ≤
      (candidate_rect ⟨0, 0, 100, 60⟩ .bottomRight ⟨150, 90⟩).height := by
    norm_num [candidate_rect, RectF.height, MIN_HEIGHT]
  exact ⟨rfl, hw, hh,
    (C4_handle_resize_normalize ⟨⟨0, 0, 100, 60⟩, 100, 60, ⟨0, 0⟩, true⟩
      .bottomRight ⟨150, 90⟩ rfl).2.2.2.1 ⟨hw, hh⟩⟩

/-- st_detach only rewrites incident lists; scene membership is
untouched. -/
theorem st_detach_sceneIds (st : SceneSt) (aid : Nat) :
    (st_detach st aid).sceneIds = st.sceneIds := by
  unfold st_detach
  cases st.arrowObjs.find? fun a => a.aid = aid <;> rfl

/-- st_detach does not touch the arrow objects. -/
theorem st_detach_arrowObjs (st : SceneSt) (aid : Nat) :
    (st_detach st aid).arrowObjs = st.arrowObjs := by
  unfold st_detach
  cases st.arrowObjs.find? fun a => a.aid = aid <;> rfl

/-- The delete loop over a shape's incident list removes exactly those
ids from the scene. -/
theorem remove_arrow_list_sceneIds (l : List Nat) (st : SceneSt) :
    (remove_arrow_list st l).sceneIds
      = st.sceneIds.filter fun i => ¬ i ∈ l := by
  induction l generalizing st with
  | nil => simp [remove_arrow_list]
  | cons a rest ih =>
      rw [remove_arrow_list, ih]
      simp only [st_remove_item, st_detach_sceneIds, List.filter_filter]
      apply List.filter_congr
      intro i _
      by_cases h1 : i = a <;> by_cases h2 : i ∈ rest <;>
        simp [h1, h2, List.mem_cons]

/-- The delete loop leaves the arrow objects in place (they only leave
the scene id set). -/
theorem remove_arrow_list_arrowObjs (l : List Nat) (st : SceneSt) :
    (remove_arrow_list st l).arrowObjs = st.arrowObjs := by
  induction l generalizing st with
  | nil => rfl
  | cons a rest ih =>
      rw [remove_arrow_list, ih]
      simp [st_remove_item, st_detach_arrowObjs]

/-- C7: deleting a selected shape first detaches and removes every arrow
of its incident list and then removes the shape: afterwards the shape is
out of the scene and no arrow still in the scene references it as an
endpoint (arrow objects themselves are only dropped from the scene, never
mutated away). -/
theorem C7_delete_selected_shape (st : SceneSt) (S : SceneShape)
    (hfind : (st.shapes.find? fun s => s.sid = S.sid) = some S)
    (hwf : ∀ a ∈ st.arrowObjs, arrow_refs a S.sid = true →
      a.aid ∈ S.arrows) :
    S.sid ∉ (delete_selected st [S.sid]).sceneIds ∧
    (delete_selected st [S.sid]).arrowObjs = st.arrowObjs ∧
    (∀ a ∈ (delete_selected st [S.sid]).arrowObjs,
      arrow_refs a S.sid = true →
        a.aid ∉ (delete_selected st [S.sid]).sceneIds) := by
  have hds : delete_selected st [S.sid]
      = st_remove_item (remove_arrow_list st S.arrows) S.sid := by
    show delete_item st S.sid = _
    unfold delete_item
    rw [hfind]
  have hscene : (delete_selected st [S.sid]).sceneIds
      = (st.sceneIds.filter fun i => ¬ i ∈ S.arrows).filter
          fun i => i ≠ S.sid := by
    rw [hds]
    simp [st_remove_item, remove_arrow_list_sceneIds]
  have harrows : (delete_selected st [S.sid]).arrowObjs = st.arrowObjs := by
    rw [hds]
    simp [st_remove_item, remove_arrow_list_arrowObjs]
  refine ⟨?_, harrows, ?_⟩
  · rw [hscene]
    simp
  · intro a ha hrefs
    rw [harrows] at ha
    have hmem : a.aid ∈ S.arrows := hwf a ha hrefs
    rw [hscene]
    intro hcon
    have := List.of_mem_filter (List.mem_of_mem_filter hcon)
    simp at this
    exact this hmem

/-- Witness for C7: shape 0 with incident arrows 10 and 11 (to shapes 1
and 2); deleting shape 0 removes it and both arrows from the scene. -/
theorem C7_delete_selected_shape_witness :
    ((SceneSt.mk [⟨0, [10, 11]⟩, ⟨1, [10]⟩, ⟨2, [11]⟩]
        [⟨10, some 0, some 1⟩, ⟨11, some 0, some 2⟩]
        [0, 1, 2, 10, 11]).shapes.find? fun s => s.sid = 0)
      = some ⟨0, [10, 11]⟩ ∧
    (∀ a ∈ (SceneSt.mk [⟨0, [10, 11]⟩, ⟨1, [10]⟩, ⟨2, [11]⟩]
        [⟨10, some 0, some 1⟩, ⟨11, some 0, some 2⟩]
        [0, 1, 2, 10, 11]).arrowObjs,
      arrow_refs a 0 = true → a.aid ∈ ([10, 11] : List Nat)) ∧
    (0 : Nat) ∉ (delete_selected
      (SceneSt.mk [⟨0, [10, 11]⟩, ⟨1, [10]⟩, ⟨2, [11]⟩]
        [⟨10, some 0, some 1⟩, ⟨11, some 0, some 2⟩]
        [0, 1, 2, 10, 11]) [0]).sceneIds ∧
    (∀ a ∈ (delete_selected
      (SceneSt.mk [⟨0, [10, 11]⟩, ⟨1, [10]⟩, ⟨2, [11]⟩]
        [⟨10, some 0, some 1⟩, ⟨11, some 0, some 2⟩]
        [0, 1, 2, 10, 11]) [0]).arrowObjs,
      arrow_refs a 0 = true →
        a.aid ∉ (delete_selected
          (SceneSt.mk [⟨0, [10, 11]⟩, ⟨1, [10]⟩, ⟨2, [11]⟩]
            [⟨10, some 0, some 1⟩, ⟨11, some 0, some 2⟩]
            [0, 1, 2, 10, 11]) [0]).sceneIds) := by
  have h := C7_delete_selected_shape
    (SceneSt.mk [⟨0, [10, 11]⟩, ⟨1, [10]⟩, ⟨2, [11]⟩]
      [⟨10, some 0, some 1⟩, ⟨11, some 0, some 2⟩]
      [0, 1, 2, 10, 11]) ⟨0, [10, 11]⟩ (by decide) (by decide)
  exact ⟨by decide, by decide, h.1, h.2.2⟩
/-- Lookup in the identity shape_map. -/
theorem lookup_idx_pairs (k : Nat) :
    ∀ n j, lookup_id (idx_pairs n k) j
      = if n ≤ j ∧ j < n + k then some j else none := by
  induction k with
  | zero =>
      intro n j
      rw [if_neg (by omega)]
      rfl
  | succ k ih =>
      intro n j
      by_cases hj : j = n
      · subst hj
        rw [if_pos (by omega)]
        simp [idx_pairs, lookup_id]
      · rw [idx_pairs]
        show lookup_id ((n, n) :: idx_pairs (n + 1) k) j = _
        unfold lookup_id
        rw [List.find?_cons_of_neg _ (by simp [Ne.symm hj])]
        rw [show ((idx_pairs (n + 1) k).find? fun e => e.1 = j).map
              (fun e => e.2) = lookup_id (idx_pairs (n + 1) k) j from rfl]
        rw [ih (n + 1) j]
        by_cases hc : n + 1 ≤ j ∧ j < n + 1 + k
        · rw [if_pos hc, if_pos (by omega)]
        · rw [if_neg hc, if_neg (by omega)]

/-- Round trip of the arrow pass against an identity id column and
shape_map: every in-range arrow with a well-formed label comes back with
the same endpoints and fields, its z-order reset to the constructor
value -1. -/
theorem deserialize_serialize_arrows (ids : List (Option Nat))
    (m : List (Nat × Nat)) (len : Nat) (arrows : List ArrowItem)
    (hids : ∀ i, ids.getD i none = if i < len then some i else none)
    (hm : ∀ j, lookup_id m j = if j < len then some j else none)
    (harr : ∀ a ∈ arrows, a.startIdx < len ∧ a.endIdx < len ∧
      label_ok a.label = true) :
    deserialize_arrows m (serialize_arrows ids arrows)
      = arrows.map arrow_reset_z := by
  induction arrows with
  | nil => rfl
  | cons a rest ih =>
      obtain ⟨h1, h2, h3⟩ := harr a (List.mem_cons_self a rest)
      have hrest : ∀ a' ∈ rest, a'.startIdx < len ∧ a'.endIdx < len ∧
          label_ok a'.label = true :=
        fun a' h' => harr a' (List.mem_cons_of_mem _ h')
      show deserialize_arrows m (List.filterMap _ (a :: rest)) = _
      rw [List.filterMap_cons]
      rw [hids a.startIdx, if_pos h1, hids a.endIdx, if_pos h2]
      show deserialize_arrows m
          (⟨a.startIdx, a.endIdx, a.bidirectional, a.color, a.label,
            a.labelColor, a.labelFontSize⟩ :: serialize_arrows ids rest) = _
      show List.filterMap _ (_ :: serialize_arrows ids rest) = _
      rw [List.filterMap_cons]
      rw [hm a.startIdx, if_pos h1, hm a.endIdx, if_pos h2]
      have hl : truthy_label a.label = a.label := by
        cases hsl : a.label with
        | none => rfl
        | some str =>
            rw [hsl] at h3
            have hne : str ≠ "" := by simpa [label_ok] using h3
            simp [truthy_label, hne]
      show (⟨a.startIdx, a.endIdx, a.bidirectional, a.color,
          truthy_label a.label, a.labelColor, a.labelFontSize, -1⟩
          : ArrowItem) :: deserialize_arrows m (serialize_arrows ids rest)
        = arrow_reset_z a :: rest.map arrow_reset_z
      rw [hl, ih hrest]
      rfl


/-- Round trip of the item pass: when every item is of a serializable
type and no non-text shape carries a label (so no record construction
raises), the pass succeeds, deserializing the serialized list rebuilds
exactly the original items, and the shape_map pairs each id with its own
index; the id column gives position i the id n + i. -/
theorem deserialize_serialize_items (l : List SceneItem) (n : Nat)
    (hwf : ∀ it ∈ l, item_serializable it = true ∧ item_label_none it = true) :
    ∃ p, serialize_items l n = .ok p ∧
      deserialize_items p.1 n = (l, idx_pairs n l.length) ∧
      ∀ i, p.2.getD i none = if i < l.length then some (n + i) else none := by
  induction l generalizing n with
  | nil =>
      refine ⟨([], []), rfl, rfl, fun i => ?_⟩
      rw [if_neg (by simp)]
      rfl
  | cons it rest ih =>
      have hhd := hwf it (List.mem_cons_self it rest)
      have hrest : ∀ it' ∈ rest,
          item_serializable it' = true ∧ item_label_none it' = true :=
        fun it' h' => hwf it' (List.mem_cons_of_mem _ h')
      obtain ⟨p', hok', hdes', hids'⟩ := ih (n + 1) hrest
      cases it with
      | shape s =>
          have hsv : serializable_variant s.variant = true := by
            simpa [item_serializable] using hhd.1
          have hln : s.label = none := by
            have := hhd.2
            simp only [item_label_none] at this
            exact Option.isNone_iff_eq_none.mp this
          have htn : type_name_variant (variant_type_name s.variant)
              = some s.variant := by
            cases hv : s.variant <;>
              first
                | rfl
                | (rw [hv] at hsv; exact absurd hsv (by simp [serializable_variant]))
          have hser : serialize_items (SceneItem.shape s :: rest) n
              = .ok (.shapeD ⟨n, variant_type_name s.variant, s.x, s.y,
                  s.width, s.height, s.color, none, s.labelColor,
                  s.labelFontSize, s.z⟩ :: p'.1, some n :: p'.2) := by
            simp only [serialize_items, if_pos hsv, hln, hok']
          refine ⟨_, hser, ?_, ?_⟩
          · simp only [deserialize_items, htn]
            rw [hdes']
            have hitem : ({ mk_shape s.variant s.x s.y s.width s.height
                s.color with
                z := s.z, labelColor := s.labelColor,
                labelFontSize := s.labelFontSize,
                label := truthy_label none } : ShapeItem) = s := by
              cases s
              simp_all [mk_shape, truthy_label]
            rw [hitem]
            rfl
          · intro i
            cases i with
            | zero => simp
            | succ i' =>
                show p'.2.getD i' none = _
                rw [hids' i']
                by_cases hc : i' < rest.length
                · rw [if_pos hc, if_pos (by simpa using Nat.succ_lt_succ hc)]
                  congr 1
                  omega
                · rw [if_neg hc, if_neg (by simp; omega)]
      | text t =>
          have hser : serialize_items (SceneItem.text t :: rest) n
              = .ok (.textD ⟨n, t.x, t.y, t.text, t.color, t.fontFamily,
                  t.fontSize, t.bold, t.underline, t.z⟩ :: p'.1,
                  some n :: p'.2) := by
            simp only [serialize_items, hok']
          refine ⟨_, hser, ?_, ?_⟩
          · simp only [deserialize_items]
            rw [hdes']
            have hitem : ({ mk_text t.x t.y t.text t.fontFamily t.fontSize
                t.color t.bold t.underline with z := t.z } : TextItem) = t := by
              cases t
              simp [mk_text]
            rw [hitem]
            rfl
          · intro i
            cases i with
            | zero => simp
            | succ i' =>
                show p'.2.getD i' none = _
                rw [hids' i']
                by_cases hc : i' < rest.length
                · rw [if_pos hc, if_pos (by simpa using Nat.succ_lt_succ hc)]
                  congr 1
                  omega
                · rw [if_neg hc, if_neg (by simp; omega)]

/-- The shape pass aborts with the AttributeError whenever some item is a
serializable shape that carries a label. -/
theorem serialize_items_error :
    ∀ l : List SceneItem, (∃ it ∈ l, shape_label_crash it = true) →
      ∀ n, serialize_items l n = .error () := by
  intro l
  induction l with
  | nil =>
      intro hbad n
      obtain ⟨it, hm, _⟩ := hbad
      exact absurd hm (by simp)
  | cons it rest ih =>
      intro hbad n
      obtain ⟨it', hm, hcrash⟩ := hbad
      rcases List.mem_cons.mp hm with rfl | hm'
      · cases it' with
        | text t => simp [shape_label_crash] at hcrash
        | shape s =>
            simp only [shape_label_crash, Bool.and_eq_true] at hcrash
            obtain ⟨hsv, hsome⟩ := hcrash
            obtain ⟨str, hstr⟩ := Option.isSome_iff_exists.mp hsome
            simp only [serialize_items, if_pos hsv, hstr]
      · have herr := ih ⟨it', hm', hcrash⟩
        cases it with
        | shape s =>
            by_cases hsv : serializable_variant s.variant = true
            · cases hsl : s.label with
              | some str => simp only [serialize_items, if_pos hsv, hsl]
              | none => simp only [serialize_items, if_pos hsv, hsl,
                  herr (n + 1)]
            · simp only [serialize_items, if_neg hsv, herr n]
        | text t => simp only [serialize_items, herr (n + 1)]

/-- Counterexample for C1: a scene holding one DiagramTriangleInverted is
not round-tripped — the serializer's isinstance filter covers only
DiagramRect, DiagramOval, DiagramDiamond, DiagramTriangle and DiagramText,
so serialization succeeds but skips the shape and the rebuilt scene has
no items. -/
theorem C1_counterexample :
    Except.map (fun d => (deserialize_scene d).items.length)
        (serialize_scene
          ⟨[.shape (mk_shape .triangleInverted 0 0 100 80 ⟨230, 126, 34⟩)],
            []⟩)
      = Except.ok 0 ∧
    ([SceneItem.shape (mk_shape .triangleInverted 0 0 100 80
        ⟨230, 126, 34⟩)] : List SceneItem).length = 1 := by
  exact ⟨rfl, rfl⟩

/-- C1 amended: for scenes built only from the serializable variants
(Rectangle, Oval, Diamond, Triangle, TextLabel) whose non-text shapes
carry no label, with arrows between in-scene items whose labels are
absent or non-empty, serialization succeeds and deserializing its output
rebuilds every item with identical variant, position, size, colors, font
size and z-order, and every arrow with the same endpoints, direction,
color and label fields; arrow z-orders are recreated at the constructor
default -1 (so they round-trip exactly when they still are -1).  The
other three triangle variants are dropped by serialization, and any
serializable shape that does carry a label makes serialization raise
AttributeError (the code reads the QGraphicsTextItem label with the
missing text() method), so such scenes are not serialized at all. -/
theorem C1_roundtrip (sc : SceneModel)
    (hit : ∀ it ∈ sc.items,
      item_serializable it = true ∧ item_label_none it = true)
    (harr : ∀ a ∈ sc.arrows, a.startIdx < sc.items.length ∧
      a.endIdx < sc.items.length ∧ label_ok a.label = true) :
    Except.map deserialize_scene (serialize_scene sc)
      = Except.ok ⟨sc.items, sc.arrows.map arrow_reset_z⟩ ∧
    (∀ scl : SceneModel, (∃ it ∈ scl.items, shape_label_crash it = true) →
      serialize_scene scl = Except.error ()) := by
  constructor
  · obtain ⟨p, hok, hdes, hids0⟩ :=
      deserialize_serialize_items sc.items 0 hit
    have hids : ∀ i, p.2.getD i none
        = if i < sc.items.length then some i else none := by
      intro i
      rw [hids0 i]
      by_cases hc : i < sc.items.length
      · rw [if_pos hc, if_pos hc]
        simp
      · rw [if_neg hc, if_neg hc]
    have hm : ∀ j, lookup_id (idx_pairs 0 sc.items.length) j
        = if j < sc.items.length then some j else none := by
      intro j
      rw [lookup_idx_pairs sc.items.length 0 j]
      by_cases hc : j < sc.items.length
      · rw [if_pos (by omega), if_pos hc]
      · rw [if_neg (by omega), if_neg hc]
    unfold serialize_scene
    rw [hok]
    show Except.ok (deserialize_scene
        ⟨1, p.1, serialize_arrows p.2 sc.arrows⟩) = _
    unfold deserialize_scene
    simp only [hdes]
    rw [deserialize_serialize_arrows p.2 (idx_pairs 0 sc.items.length)
      sc.items.length sc.arrows hids hm harr]
  · intro scl hbad
    unfold serialize_scene
    rw [serialize_items_error scl.items hbad 0]

/-- Witness for C1: an unlabelled rectangle and a text item joined by a
labelled bidirectional arrow at the default z -1 round-trip exactly,
while a scene with a labelled rectangle makes serialization raise. -/
theorem C1_roundtrip_witness :
    (∀ it ∈ ([.shape (mk_shape .rect 10 20 100 60 ⟨52, 152, 219⟩),
        .text (mk_text 200 50 "hello" "Arial" 14 ⟨51, 51, 51⟩ false false)]
        : List SceneItem),
      item_serializable it = true ∧ item_label_none it = true) ∧
    (∀ a ∈ ([⟨0, 1, true, ⟨51, 51, 51⟩, some "link", ⟨51, 51, 51⟩, 9, -1⟩]
        : List ArrowItem),
      a.startIdx < 2 ∧ a.endIdx < 2 ∧ label_ok a.label = true) ∧
    Except.map deserialize_scene (serialize_scene
        ⟨[.shape (mk_shape .rect 10 20 100 60 ⟨52, 152, 219⟩),
          .text (mk_text 200 50 "hello" "Arial" 14 ⟨51, 51, 51⟩ false false)],
         [⟨0, 1, true, ⟨51, 51, 51⟩, some "link", ⟨51, 51, 51⟩, 9, -1⟩]⟩)
      = Except.ok
          ⟨[.shape (mk_shape .rect 10 20 100 60 ⟨52, 152, 219⟩),
            .text (mk_text 200 50 "hello" "Arial" 14 ⟨51, 51, 51⟩ false
              false)],
           List.map arrow_reset_z
             [⟨0, 1, true, ⟨51, 51, 51⟩, some "link", ⟨51, 51, 51⟩, 9, -1⟩]⟩ ∧
    serialize_scene
        ⟨[.shape { mk_shape .rect 0 0 100 60 ⟨52, 152, 219⟩ with
            label := some "L" }], []⟩
      = Except.error () := by
  have h := C1_roundtrip
    ⟨[.shape (mk_shape .rect 10 20 100 60 ⟨52, 152, 219⟩),
      .text (mk_text 200 50 "hello" "Arial" 14 ⟨51, 51, 51⟩ false false)],
     [⟨0, 1, true, ⟨51, 51, 51⟩, some "link", ⟨51, 51, 51⟩, 9, -1⟩]⟩
    (by intro it hmem
        cases hmem with
        | head => exact ⟨rfl, rfl⟩
        | tail _ h2 =>
            cases h2 with
            | head => exact ⟨rfl, rfl⟩
            | tail _ h3 => cases h3)
    (by intro a hmem
        cases hmem with
        | head => exact ⟨by decide, by decide, rfl⟩
        | tail _ h2 => cases h2)
  refine ⟨?_, ?_, h.1, ?_⟩
  · intro it hmem
    cases hmem with
    | head => exact ⟨rfl, rfl⟩
    | tail _ h2 =>
        cases h2 with
        | head => exact ⟨rfl, rfl⟩
        | tail _ h3 => cases h3
  · intro a hmem
    cases hmem with
    | head => exact ⟨by decide, by decide, rfl⟩
    | tail _ h2 => cases h2
  · exact h.2
      ⟨[.shape { mk_shape .rect 0 0 100 60 ⟨52, 152, 219⟩ with
          label := some "L" }], []⟩
      ⟨.shape { mk_shape .rect 0 0 100 60 ⟨52, 152, 219⟩ with
          label := some "L" },
        List.mem_cons_self _ _, rfl⟩
